import Mathlib

/-!
Verification of the media validation and upload pipeline of
`src/bot.py` (MediaToTlgf).

The pipeline is embedded shallowly: the external world (the Telegram
API, the HTTP transport, libmagic sniffing, the Telegraph endpoint) is
an oracle record `Env` fixing the outcome of each external call, and
`handle_media` is a pure function from a message and an oracle to a
`RunResult` recording the replies sent, whether the scratch file was
created and whether it still exists when the handler returns, whether a
download / an upload network call was attempted, and whether an
exception escaped the handler.
-/

set_option autoImplicit false

namespace MediaBot

/-- `SUPPORTED_EXTENSIONS` from `bot.py` line 38. -/
def SUPPORTED_EXTENSIONS : List String := [".jpg", ".jpeg", ".png", ".gif", ".mp4"]

/-- `SUPPORTED_MIME_TYPES` from `bot.py` line 39. -/
def SUPPORTED_MIME_TYPES : List String := ["image/jpeg", "image/png", "image/gif", "video/mp4"]

/-- Python `str.lower()` restricted to ASCII (every string the pipeline
lowercases is an ASCII extension). -/
def strToLower (s : String) : String := String.mk (s.toList.map Char.toLower)

/-- Python `s.startswith(pre)`. -/
def strStartsWith (s pre : String) : Bool := pre.toList.isPrefixOf s.toList

/-- Python truthiness of an optional string (`if not x` / `if x`):
`None` and the empty string are falsy, every other string is truthy. -/
def pyTruthyStrOpt : Option String → Bool
  | none => false
  | some s => !(s == "")

/-- Python `x or ''` on an optional string: `None` (and `''`) become `''`. -/
def pyOrEmpty : Option String → String
  | none => ""
  | some s => s

/-- The extension part of Python `os.path.splitext`: the suffix starting
at the last dot of the basename, provided a character other than a dot
precedes that dot within the basename; otherwise the empty string. -/
def splitextExt (name : String) : String :=
  let base := (name.toList.reverse.takeWhile (fun c => c ≠ '/')).reverse
  let revBase := base.reverse
  let afterRev := revBase.takeWhile (fun c => c ≠ '.')
  match revBase.dropWhile (fun c => c ≠ '.') with
  | [] => ""
  | _ :: preRev =>
    if preRev.any (fun c => c ≠ '.') then String.mk ('.' :: afterRev.reverse) else ""

/-- The three message kinds handled by `handle_media`
(`content_types=['photo', 'video', 'document']`). -/
inductive ContentType
  | photo
  | video
  | document
  deriving DecidableEq

/-- An inbound media message: its kind and (for video/document) the
declared file name, as supplied by the sender. -/
structure Message where
  contentType : ContentType
  fileName : Option String
  deriving DecidableEq

/-- The `file_ext` computed by `handle_media` lines 127-135: `.jpg` for a
photo; for a video `os.path.splitext(file_name or '')[1] or '.mp4'`; for
a document `os.path.splitext(file_name or '')[1]`. -/
def effectiveExt (msg : Message) : String :=
  match msg.contentType with
  | .photo => ".jpg"
  | .video =>
    let e := splitextExt (pyOrEmpty msg.fileName)
    if e == "" then ".mp4" else e
  | .document => splitextExt (pyOrEmpty msg.fileName)

/-- Oracle for one call of `download_file` (`bot.py` lines 51-65): the
HTTP GET may return 200 and the local write succeed (`ok`), the GET may
return a non-200 status (`httpError`), an exception may be raised before
`open` creates the local file (`raisesBeforeOpen`, e.g. a transport
error in `requests.get`), or an exception may be raised after `open`
already created the file (`raisesAfterOpen`, e.g. `f.write` failing on a
full disk). All exceptions are caught inside `download_file`. -/
inductive DownloadOutcome
  | ok
  | httpError
  | raisesBeforeOpen
  | raisesAfterOpen
  deriving DecidableEq

/-- `download_file` (`bot.py` lines 51-65), returning the boolean result
the source returns together with whether the scratch file was created on
disk by the call. -/
def download_file : DownloadOutcome → Bool × Bool
  | .ok => (true, true)
  | .httpError => (false, false)
  | .raisesBeforeOpen => (false, false)
  | .raisesAfterOpen => (false, true)

/-- Oracle for one `magic.from_file(path, mime=True)` call: it raises,
or returns the sniffed MIME type of the file's bytes. -/
inductive SniffOutcome
  | raises
  | mime (m : String)
  deriving DecidableEq

/-- An item of a list-shaped Telegraph response; `src` is the value of
`item.get('src')`, absent when the object has no `src` key. -/
structure TelegraphItem where
  src : Option String
  deriving DecidableEq

/-- The shape of the value returned by `telegraph.upload_file`: a bare
string, a list of objects, or anything else (e.g. a dict such as
`\x7b"unexpected": "shape"\x7d`). -/
inductive TelegraphResponse
  | str (s : String)
  | list (items : List TelegraphItem)
  | other
  deriving DecidableEq

/-- Oracle for the `telegraph.upload_file` call: it raises (network or
library failure, caught by `upload_to_telegraph`), or returns a response
value. -/
inductive UploadCallOutcome
  | raises
  | returns (r : TelegraphResponse)
  deriving DecidableEq

/-- The response handling of `upload_to_telegraph` (`bot.py` lines
96-109): a string is returned unchanged when it starts with `/file/` and
is an error otherwise; a non-empty list yields `response[0].get('src')`;
everything else (empty list, dict, ...) is an error (`None`). -/
def parseTelegraphResponse : TelegraphResponse → Option String
  | .str s => if strStartsWith s "/file/" then some s else none
  | .list [] => none
  | .list (it :: _) => it.src
  | .other => none

/-- Environment of one `upload_to_telegraph` call: the
`TELEGRAPH_ACCESS_TOKEN` read from the environment, the size of the file
at `file_path`, the outcome of the `magic.from_file` sniff, and the
outcome of the `telegraph.upload_file` network call. -/
structure UploadEnv where
  accessToken : Option String
  fileSize : Nat
  mimeSniff : SniffOutcome
  callOutcome : UploadCallOutcome
  deriving DecidableEq

/-- Result of `upload_to_telegraph`: the returned value (`None` on every
failure) and whether the network upload call was issued. -/
structure UploadRun where
  result : Option String
  networkAttempted : Bool
  deriving DecidableEq

/-- `upload_to_telegraph` (`bot.py` lines 69-112): no (or empty) access
token returns `None` at once; then the file size is checked against
5 * 1024 * 1024 bytes; then the MIME type is sniffed (a sniffing
exception is caught by the surrounding `try`, yielding `None`) and
checked against `SUPPORTED_MIME_TYPES`; only then is the network upload
issued and its response parsed. -/
def upload_to_telegraph (env : UploadEnv) : UploadRun :=
  if !(pyTruthyStrOpt env.accessToken) then
    ⟨none, false⟩
  else if env.fileSize > 5 * 1024 * 1024 then
    ⟨none, false⟩
  else
    match env.mimeSniff with
    | .raises => ⟨none, false⟩
    | .mime m =>
      if m ∉ SUPPORTED_MIME_TYPES then ⟨none, false⟩
      else
        match env.callOutcome with
        | .raises => ⟨none, true⟩
        | .returns r => ⟨parseTelegraphResponse r, true⟩

/-- The exact fallback text of the catch-all handler (`bot.py` line 195). -/
def fallbackText : String := "Something went wrong! Please try again."

/-- A reply sent via `bot.reply_to`. Constructors carry the payload the
source interpolates into the message text; for `successLink` and
`fallback` the full text is carried verbatim (the float rendering inside
the `tooLarge` text is elided, only the raw byte count is kept). -/
inductive Reply
  | extRejected (ext : String)
  | downloadFailed
  | tooLarge (sizeBytes : Nat)
  | unsupportedType (mime : String)
  | successLink (text : String)
  | uploadFailed
  | fallback (text : String)
  deriving DecidableEq

/-- Oracle for one `handle_media` run: `token` is the
`TELEGRAPH_ACCESS_TOKEN` visible to `upload_to_telegraph`,
`getFileRaises` whether `bot.get_file` raises (e.g. the Telegram API
refusing files over 20 MB), `download` the `download_file` outcome,
`fileSize` the on-disk size after a successful download, `sniff` the
`magic.from_file` outcome on the downloaded bytes (the same file is
sniffed again inside `upload_to_telegraph`), and `uploadCall` the
outcome of the Telegraph network call. -/
structure Env where
  token : Option String
  getFileRaises : Bool
  download : DownloadOutcome
  fileSize : Nat
  sniff : SniffOutcome
  uploadCall : UploadCallOutcome
  deriving DecidableEq

/-- Observable outcome of one `handle_media` run. -/
structure RunResult where
  replies : List Reply
  fileCreated : Bool
  fileExistsAfter : Bool
  downloadAttempted : Bool
  uploadNetworkAttempted : Bool
  propagated : Bool
  deriving DecidableEq

/-- `handle_media` lines 151-191: everything after the extension
pre-check. Note the download-failure branch (lines 152-154) returns
without removing the scratch file, while the size-rejection,
type-rejection, upload-failure and success branches all remove it; a
`magic.from_file` exception at line 166 reaches the catch-all, which
replies with the fallback text and removes the file (the temp name is
bound by then). -/
def pipelineCore (env : Env) : RunResult :=
  match download_file env.download with
  | (false, created) =>
    { replies := [.downloadFailed], fileCreated := created, fileExistsAfter := created,
      downloadAttempted := true, uploadNetworkAttempted := false, propagated := false }
  | (true, _) =>
    if env.fileSize > 5 * 1024 * 1024 then
      { replies := [.tooLarge env.fileSize], fileCreated := true, fileExistsAfter := false,
        downloadAttempted := true, uploadNetworkAttempted := false, propagated := false }
    else
      match env.sniff with
      | .raises =>
        { replies := [.fallback fallbackText], fileCreated := true, fileExistsAfter := false,
          downloadAttempted := true, uploadNetworkAttempted := false, propagated := false }
      | .mime m =>
        if m ∉ SUPPORTED_MIME_TYPES then
          { replies := [.unsupportedType m], fileCreated := true, fileExistsAfter := false,
            downloadAttempted := true, uploadNetworkAttempted := false, propagated := false }
        else
          let u := upload_to_telegraph ⟨env.token, env.fileSize, env.sniff, env.uploadCall⟩
          match u.result with
          | none =>
            { replies := [.uploadFailed], fileCreated := true, fileExistsAfter := false,
              downloadAttempted := true, uploadNetworkAttempted := u.networkAttempted,
              propagated := false }
          | some p =>
            if p == "" then
              { replies := [.uploadFailed], fileCreated := true, fileExistsAfter := false,
                downloadAttempted := true, uploadNetworkAttempted := u.networkAttempted,
                propagated := false }
            else
              { replies := [.successLink ("Here\x27s your Telegraph link: <a href=\x27" ++
                    ("https://telegra.ph" ++ p) ++ "\x27>View Media</a>")],
                fileCreated := true, fileExistsAfter := false,
                downloadAttempted := true, uploadNetworkAttempted := u.networkAttempted,
                propagated := false }

/-- `handle_media` (`bot.py` lines 123-197). If `bot.get_file` raises,
the local `file_name` is never bound, so the catch-all sends the
fallback reply and then itself raises `UnboundLocalError` at
`os.path.exists(file_name)` (line 196), which escapes the handler
(`propagated := true`). Otherwise the extension pre-check compares the
lowercased `file_ext` against `SUPPORTED_EXTENSIONS` and rejects before
any download; then the rest of the pipeline runs. -/
def handle_media (msg : Message) (env : Env) : RunResult :=
  if env.getFileRaises then
    { replies := [.fallback fallbackText], fileCreated := false, fileExistsAfter := false,
      downloadAttempted := false, uploadNetworkAttempted := false, propagated := true }
  else if strToLower (effectiveExt msg) ∉ SUPPORTED_EXTENSIONS then
    { replies := [.extRejected (effectiveExt msg)], fileCreated := false,
      fileExistsAfter := false, downloadAttempted := false,
      uploadNetworkAttempted := false, propagated := false }
  else
    pipelineCore env

/-- Every branch of the post-extension pipeline has invoked
`download_file`. -/
theorem pipelineCore_downloadAttempted (env : Env) :
    (pipelineCore env).downloadAttempted = true := by
  unfold pipelineCore
  split
  · rfl
  · split
    · rfl
    · split
      · rfl
      · split
        · rfl
        · dsimp only
          split
          · rfl
          · split <;> rfl

/-- Claim C1: as stated the claim fails on the code. At most one scratch
file is indeed created per run, but when the HTTP download returns 200,
`open` creates the temp file and the subsequent write raises,
`download_file` catches the exception and returns `False`, and the
download-failure branch of `handle_media` (lines 152-154) returns
without removing the file — so the file is still on disk after the run.
This theorem evaluates the pipeline at that failing input. -/
theorem staged_file_left_after_failed_write :
    (handle_media ⟨ContentType.document, some "a.jpg"⟩
        ⟨none, false, DownloadOutcome.raisesAfterOpen, 0, SniffOutcome.raises,
          UploadCallOutcome.raises⟩).replies = [Reply.downloadFailed] ∧
    (handle_media ⟨ContentType.document, some "a.jpg"⟩
        ⟨none, false, DownloadOutcome.raisesAfterOpen, 0, SniffOutcome.raises,
          UploadCallOutcome.raises⟩).fileCreated = true ∧
    (handle_media ⟨ContentType.document, some "a.jpg"⟩
        ⟨none, false, DownloadOutcome.raisesAfterOpen, 0, SniffOutcome.raises,
          UploadCallOutcome.raises⟩).fileExistsAfter = true := by
  decide

/-- Claim C2: on every run that passes the extension pre-check and whose
download succeeds, the reply is the too-large rejection carrying the
observed size exactly when the byte length exceeds 5 * 1024 * 1024 (so
exactly 5 MiB passes), and when the size check fails the run is
independent of the sniffed content type — the size check short-circuits
before the type check. -/
theorem size_check_five_mib_short_circuit (msg : Message) (env : Env)
    (hge : env.getFileRaises = false)
    (hext : strToLower (effectiveExt msg) ∈ SUPPORTED_EXTENSIONS)
    (hdl : env.download = DownloadOutcome.ok) :
    (5 * 1024 * 1024 < env.fileSize →
      (handle_media msg env).replies = [Reply.tooLarge env.fileSize] ∧
      ∀ s, handle_media msg { env with sniff := s } = handle_media msg env) ∧
    (env.fileSize ≤ 5 * 1024 * 1024 →
      ∀ n, Reply.tooLarge n ∉ (handle_media msg env).replies) := by
  have hpc : ∀ s, handle_media msg { env with sniff := s } =
      pipelineCore { env with sniff := s } := by
    intro s
    simp [handle_media, hge, hext]
  have hpc0 : handle_media msg env = pipelineCore env := by
    simp [handle_media, hge, hext]
  constructor
  · intro hsz
    refine ⟨?_, ?_⟩
    · rw [hpc0]
      simp [pipelineCore, hdl, download_file, hsz]
    · intro s
      rw [hpc s, hpc0]
      simp [pipelineCore, hdl, download_file, hsz]
  · intro hsz n
    rw [hpc0]
    have hnlt : ¬ (5 * 1024 * 1024 < env.fileSize) := Nat.not_lt.mpr hsz
    rcases hs : env.sniff with _ | m
    · simp [pipelineCore, hdl, download_file, hnlt, hs]
    · by_cases hm : m ∈ SUPPORTED_MIME_TYPES
      · rcases hr : (upload_to_telegraph
            ⟨env.token, env.fileSize, SniffOutcome.mime m, env.uploadCall⟩).result with _ | p
        · simp [pipelineCore, hdl, download_file, hnlt, hs, hm, hr]
        · by_cases hp : p = "" <;>
            simp [pipelineCore, hdl, download_file, hnlt, hs, hm, hr, hp]
      · simp [pipelineCore, hdl, download_file, hnlt, hs, hm]

/-- Witness for C2: a 5 MiB + 1 file passing the extension pre-check is
rejected as too large. -/
theorem size_check_five_mib_short_circuit_witness :
    (handle_media ⟨ContentType.document, some "big.jpg"⟩
        ⟨none, false, DownloadOutcome.ok, 5 * 1024 * 1024 + 1,
          SniffOutcome.mime "image/jpeg", UploadCallOutcome.raises⟩).replies =
      [Reply.tooLarge (5 * 1024 * 1024 + 1)] :=
  ((size_check_five_mib_short_circuit ⟨ContentType.document, some "big.jpg"⟩
      ⟨none, false, DownloadOutcome.ok, 5 * 1024 * 1024 + 1,
        SniffOutcome.mime "image/jpeg", UploadCallOutcome.raises⟩
      rfl (by decide) rfl).1 (by decide)).1

/-- Claim C3: on every run that passes the extension pre-check, download
and size check, the run replies with the unsupported-type rejection
carrying the sniffed MIME type exactly when that type is outside
`SUPPORTED_MIME_TYPES` — whatever the declared filename was — and the
run's outcome is the same for every message passing the pre-check, so
the decision never depends on the filename. -/
theorem sniffed_type_allowlist (msg : Message) (env : Env) (m : String)
    (hge : env.getFileRaises = false)
    (hext : strToLower (effectiveExt msg) ∈ SUPPORTED_EXTENSIONS)
    (hdl : env.download = DownloadOutcome.ok)
    (hsz : env.fileSize ≤ 5 * 1024 * 1024)
    (hsn : env.sniff = SniffOutcome.mime m) :
    ((handle_media msg env).replies = [Reply.unsupportedType m] ↔
      m ∉ SUPPORTED_MIME_TYPES) ∧
    (∀ msg2 : Message, strToLower (effectiveExt msg2) ∈ SUPPORTED_EXTENSIONS →
      handle_media msg2 env = handle_media msg env) := by
  have hpc0 : handle_media msg env = pipelineCore env := by
    simp [handle_media, hge, hext]
  have hnlt : ¬ (5 * 1024 * 1024 < env.fileSize) := Nat.not_lt.mpr hsz
  constructor
  · rw [hpc0]
    by_cases hm : m ∈ SUPPORTED_MIME_TYPES
    · rcases hr : (upload_to_telegraph
          ⟨env.token, env.fileSize, SniffOutcome.mime m, env.uploadCall⟩).result with _ | p
      · simp [pipelineCore, hdl, download_file, hnlt, hsn, hm, hr]
      · by_cases hp : p = "" <;>
          simp [pipelineCore, hdl, download_file, hnlt, hsn, hm, hr, hp]
    · simp [pipelineCore, hdl, download_file, hnlt, hsn, hm]
  · intro msg2 hext2
    rw [hpc0]
    simp [handle_media, hge, hext2]

/-- Witness for C3: a file with an allowed declared extension but
sniffed as `text/plain` is rejected with the detected type. -/
theorem sniffed_type_allowlist_witness :
    (handle_media ⟨ContentType.document, some "evil.jpg"⟩
        ⟨none, false, DownloadOutcome.ok, 100, SniffOutcome.mime "text/plain",
          UploadCallOutcome.raises⟩).replies = [Reply.unsupportedType "text/plain"] :=
  (sniffed_type_allowlist ⟨ContentType.document, some "evil.jpg"⟩
    ⟨none, false, DownloadOutcome.ok, 100, SniffOutcome.mime "text/plain",
      UploadCallOutcome.raises⟩ "text/plain"
    rfl (by decide) rfl (by decide) rfl).1.mpr (by decide)

/-- Claim C4: the response handling of `upload_to_telegraph` is total
over the response shapes: a non-empty list yields the first element's
`src` value, a bare string with the `/file/` path prefix is returned
unchanged, and every other shape (string without the prefix, empty list,
dict-like value) yields the error value `none`. -/
theorem upload_response_parsing_total :
    (∀ (it : TelegraphItem) (rest : List TelegraphItem),
      parseTelegraphResponse (.list (it :: rest)) = it.src) ∧
    (∀ s : String, strStartsWith s "/file/" = true →
      parseTelegraphResponse (.str s) = some s) ∧
    (∀ s : String, strStartsWith s "/file/" = false →
      parseTelegraphResponse (.str s) = none) ∧
    parseTelegraphResponse (.list []) = none ∧
    parseTelegraphResponse .other = none := by
  refine ⟨fun it rest => rfl, fun s h => ?_, fun s h => ?_, rfl, rfl⟩
  · simp [parseTelegraphResponse, h]
  · simp [parseTelegraphResponse, h]

/-- Witness for C4: `[⟨"src": "/file/abc.png"⟩]` resolves to
`/file/abc.png`, the bare string does too, and the dict-like shape is an
error. -/
theorem upload_response_parsing_total_witness :
    parseTelegraphResponse (.list [⟨some "/file/abc.png"⟩]) = some "/file/abc.png" ∧
    parseTelegraphResponse (.str "/file/abc.png") = some "/file/abc.png" ∧
    parseTelegraphResponse .other = none := by
  refine ⟨?_, ?_, ?_⟩
  · exact upload_response_parsing_total.1 ⟨some "/file/abc.png"⟩ []
  · exact upload_response_parsing_total.2.1 "/file/abc.png" (by decide)
  · exact upload_response_parsing_total.2.2.2.2

/-- Claim C5: with no access token configured, `upload_to_telegraph`
returns the error value at once, for every file size, sniff outcome and
remote behaviour, without issuing the network upload call. -/
theorem no_credential_no_network (size : Nat) (sn : SniffOutcome)
    (c : UploadCallOutcome) :
    upload_to_telegraph ⟨none, size, sn, c⟩ = ⟨none, false⟩ := rfl

/-- Claim C6 counterexample: a video whose declared filename `clip` has
no extension — the empty extension is not in `SUPPORTED_EXTENSIONS` —
is not rejected at the pre-check: the code substitutes `.mp4` (line 132)
and proceeds to attempt the download. -/
theorem extension_precheck_empty_ext_counterexample :
    splitextExt "clip" = "" ∧
    "" ∉ SUPPORTED_EXTENSIONS ∧
    (handle_media ⟨ContentType.video, some "clip"⟩
        ⟨none, false, DownloadOutcome.httpError, 0, SniffOutcome.raises,
          UploadCallOutcome.raises⟩).downloadAttempted = true ∧
    (handle_media ⟨ContentType.video, some "clip"⟩
        ⟨none, false, DownloadOutcome.httpError, 0, SniffOutcome.raises,
          UploadCallOutcome.raises⟩).replies = [Reply.downloadFailed] := by
  decide

/-- Claim C6 (amended): for every inbound media message whose effective
extension — `.jpg` for a photo, the declared extension otherwise, with a
video's missing extension defaulting to `.mp4` — is, after lowercasing,
not in the allow-list, the orchestrator replies with the extension
rejection and terminates before any download: no file is fetched or
created. -/
theorem extension_precheck_rejects_before_download (msg : Message) (env : Env)
    (hge : env.getFileRaises = false)
    (hext : strToLower (effectiveExt msg) ∉ SUPPORTED_EXTENSIONS) :
    (handle_media msg env).replies = [Reply.extRejected (effectiveExt msg)] ∧
    (handle_media msg env).downloadAttempted = false ∧
    (handle_media msg env).fileCreated = false ∧
    (handle_media msg env).fileExistsAfter = false := by
  simp [handle_media, hge, hext]

/-- Witness for amended C6: a `.txt` document is rejected at the
pre-check with no download. -/
theorem extension_precheck_rejects_before_download_witness :
    (handle_media ⟨ContentType.document, some "notes.txt"⟩
        ⟨none, false, DownloadOutcome.ok, 0, SniffOutcome.raises,
          UploadCallOutcome.raises⟩).replies = [Reply.extRejected ".txt"] ∧
    (handle_media ⟨ContentType.document, some "notes.txt"⟩
        ⟨none, false, DownloadOutcome.ok, 0, SniffOutcome.raises,
          UploadCallOutcome.raises⟩).downloadAttempted = false := by
  have h := extension_precheck_rejects_before_download
    ⟨ContentType.document, some "notes.txt"⟩
    ⟨none, false, DownloadOutcome.ok, 0, SniffOutcome.raises, UploadCallOutcome.raises⟩
    rfl (by decide)
  exact ⟨h.1, h.2.1⟩

/-- Claim C7: as stated the claim fails on the code. When `bot.get_file`
raises (e.g. the Telegram API refusing a file over 20 MB) the catch-all
does send the fallback reply, but the local `file_name` was never bound,
so `os.path.exists(file_name)` on line 196 raises `UnboundLocalError`,
which escapes `handle_media` — the orchestrator crashes instead of
recovering. This theorem evaluates the pipeline at that failing
input. -/
theorem fallback_reply_then_unbound_local_crash :
    (handle_media ⟨ContentType.photo, none⟩
        ⟨none, true, DownloadOutcome.httpError, 0, SniffOutcome.raises,
          UploadCallOutcome.raises⟩).replies =
      [Reply.fallback "Something went wrong! Please try again."] ∧
    (handle_media ⟨ContentType.photo, none⟩
        ⟨none, true, DownloadOutcome.httpError, 0, SniffOutcome.raises,
          UploadCallOutcome.raises⟩).propagated = true := by
  decide

/-- Claim C8: on a fully successful run — extension pre-check, download,
size check and type check pass, and `upload_to_telegraph` returns a
non-empty path `p` — the single reply is the HTML anchor built from the
fixed base origin `https://telegra.ph` concatenated with `p`. -/
theorem success_reply_anchor (msg : Message) (env : Env) (m p : String)
    (hge : env.getFileRaises = false)
    (hext : strToLower (effectiveExt msg) ∈ SUPPORTED_EXTENSIONS)
    (hdl : env.download = DownloadOutcome.ok)
    (hsz : env.fileSize ≤ 5 * 1024 * 1024)
    (hsn : env.sniff = SniffOutcome.mime m)
    (hmem : m ∈ SUPPORTED_MIME_TYPES)
    (hu : (upload_to_telegraph
      ⟨env.token, env.fileSize, env.sniff, env.uploadCall⟩).result = some p)
    (hp : p ≠ "") :
    (handle_media msg env).replies =
      [Reply.successLink ("Here\x27s your Telegraph link: <a href=\x27" ++
        ("https://telegra.ph" ++ p) ++ "\x27>View Media</a>")] := by
  have hpc0 : handle_media msg env = pipelineCore env := by
    simp [handle_media, hge, hext]
  have hnlt : ¬ (5 * 1024 * 1024 < env.fileSize) := Nat.not_lt.mpr hsz
  rw [hsn] at hu
  rw [hpc0]
  simp [pipelineCore, hdl, download_file, hnlt, hsn, hmem, hu, hp]

/-- Witness for C8: a 2 MiB JPEG photo whose upload returns the path
`/file/xyz.jpg` yields the anchor around
`https://telegra.ph/file/xyz.jpg`. -/
theorem success_reply_anchor_witness :
    (handle_media ⟨ContentType.photo, none⟩
        ⟨some "t", false, DownloadOutcome.ok, 2 * 1024 * 1024,
          SniffOutcome.mime "image/jpeg",
          UploadCallOutcome.returns (.list [⟨some "/file/xyz.jpg"⟩])⟩).replies =
      [Reply.successLink ("Here\x27s your Telegraph link: <a href=\x27" ++
        ("https://telegra.ph" ++ "/file/xyz.jpg") ++ "\x27>View Media</a>")] :=
  success_reply_anchor ⟨ContentType.photo, none⟩
    ⟨some "t", false, DownloadOutcome.ok, 2 * 1024 * 1024,
      SniffOutcome.mime "image/jpeg",
      UploadCallOutcome.returns (.list [⟨some "/file/xyz.jpg"⟩])⟩
    "image/jpeg" "/file/xyz.jpg"
    rfl (by decide) rfl (by decide) rfl (by decide) (by decide) (by decide)

/-- Claim C9: the extension pre-check is case-insensitive: when
`bot.get_file` does not raise, the download is attempted exactly when
the lowercased effective extension is in `SUPPORTED_EXTENSIONS`, so
uppercase and mixed-case variants of the allowed extensions pass. -/
theorem extension_precheck_case_insensitive (msg : Message) (env : Env)
    (hge : env.getFileRaises = false) :
    (handle_media msg env).downloadAttempted = true ↔
      strToLower (effectiveExt msg) ∈ SUPPORTED_EXTENSIONS := by
  by_cases hext : strToLower (effectiveExt msg) ∈ SUPPORTED_EXTENSIONS
  · have hpc0 : handle_media msg env = pipelineCore env := by
      simp [handle_media, hge, hext]
    rw [hpc0]
    simp [pipelineCore_downloadAttempted, hext]
  · simp [handle_media, hge, hext]

/-- Witness for C9: a document declared as `photo.JPG` passes the
pre-check and reaches the download stage. -/
theorem extension_precheck_case_insensitive_witness :
    (handle_media ⟨ContentType.document, some "photo.JPG"⟩
        ⟨none, false, DownloadOutcome.httpError, 0, SniffOutcome.raises,
          UploadCallOutcome.raises⟩).downloadAttempted = true :=
  (extension_precheck_case_insensitive ⟨ContentType.document, some "photo.JPG"⟩
    ⟨none, false, DownloadOutcome.httpError, 0, SniffOutcome.raises,
      UploadCallOutcome.raises⟩ rfl).mpr (by decide)

/-- Claim C10: `upload_to_telegraph` re-validates on its own: whatever
token is configured and whatever the remote would answer, a file larger
than 5 * 1024 * 1024 bytes or sniffed outside the MIME allow-list makes
it return the error value without the network upload call ever being
issued. -/
theorem upload_revalidates_before_network (tok : Option String) (size : Nat)
    (m : String) (c : UploadCallOutcome)
    (h : 5 * 1024 * 1024 < size ∨ m ∉ SUPPORTED_MIME_TYPES) :
    upload_to_telegraph ⟨tok, size, SniffOutcome.mime m, c⟩ = ⟨none, false⟩ := by
  unfold upload_to_telegraph
  by_cases ht : pyTruthyStrOpt tok
  · rcases h with h | h
    · simp [ht, h]
    · by_cases hsz : 5 * 1024 * 1024 < size
      · simp [ht, hsz]
      · simp [ht, hsz, h]
  · simp [ht]

/-- Witness for C10: a 6 MiB file is refused with no network call, even
with a token configured and a remote that would answer. -/
theorem upload_revalidates_before_network_witness :
    upload_to_telegraph ⟨some "t", 6 * 1024 * 1024, SniffOutcome.mime "image/jpeg",
      UploadCallOutcome.returns (.str "/file/a")⟩ = ⟨none, false⟩ :=
  upload_revalidates_before_network (some "t") (6 * 1024 * 1024) "image/jpeg"
    (UploadCallOutcome.returns (.str "/file/a")) (Or.inl (by decide))

end MediaBot
